import Mathlib

/-!
Verification development for the tailwind-playground repository.

The repository consists of static configuration fixtures: two exported
configuration objects (src/detecting-classes/tailwind.config.js and
src/functions-directives/tailwind.config.js), README documentation that
shows safelist/blocklist configuration examples and the stylesheet entry
directives, and static markup. The configuration objects are embedded
below as values of a small JavaScript-value datatype, translated field by
field from the source files.
-/

namespace TailwindPlayground

/-- A JavaScript value as it occurs in the configuration files of the
repository: string literals, numbers, array literals, object literals
(ordered field lists), and regular-expression literals. -/
inductive JSValue where
  | str (s : String)
  | num (n : Int)
  | arr (elems : List JSValue)
  | obj (fields : List (String × JSValue))
  | regex (pat : String)
  deriving Repr

/-- Fields of an object literal; any other value has none. -/
def objFields : JSValue → List (String × JSValue)
  | .obj fs => fs
  | _ => []

/-- Keys of an object literal, in source order. -/
def objKeys (v : JSValue) : List String := (objFields v).map Prod.fst

/-- Look up a key in an object literal. -/
def lookupKey (v : JSValue) (k : String) : Option JSValue :=
  (objFields v).lookup k

/-- Follow a path of keys through nested object literals. -/
def getPath (v : JSValue) : List String → Option JSValue
  | [] => some v
  | k :: ks =>
    match lookupKey v k with
    | some w => getPath w ks
    | none => none

/-- Elements of an array literal; any other value has none. -/
def arrElems : JSValue → List JSValue
  | .arr xs => xs
  | _ => []

/-- Whether a value is a string literal. -/
def isStrValue : JSValue → Bool
  | .str _ => true
  | _ => false

/-- Whether a character list begins with the given pattern list. -/
def charsLeadWith : List Char → List Char → Bool
  | [], _ => true
  | _ :: _, [] => false
  | p :: ps, c :: cs => p == c && charsLeadWith ps cs

/-- Whether string s begins with string p (computed on character lists). -/
def strLeadsWith (s p : String) : Bool := charsLeadWith p.toList s.toList

/-- Whether string s ends with string p (computed on character lists). -/
def strClosesWith (s p : String) : Bool :=
  charsLeadWith p.toList.reverse s.toList.reverse

/-- The configuration object exported by
src/detecting-classes/tailwind.config.js: content paths, an empty
theme.extend block, and an empty plugins array. -/
def detectingClassesConfig : JSValue :=
  .obj [
    ("content", .arr [
      .str "./index.html",
      .str "./src/**/*.\x7bjs,ts,jsx,tsx\x7d"]),
    ("theme", .obj [("extend", .obj [])]),
    ("plugins", .arr [])]

/-- The configuration object exported by
src/functions-directives/tailwind.config.js: content paths, a theme.extend
block with a brand color scale, a spacing scale and a fontSize scale, and
an empty plugins array. -/
def functionsDirectivesConfig : JSValue :=
  .obj [
    ("content", .arr [
      .str "./index.html",
      .str "./src/**/*.\x7bjs,ts,jsx,tsx\x7d"]),
    ("theme", .obj [("extend", .obj [
      ("colors", .obj [
        ("brand", .obj [
          ("light", .str "var(--color-brand-light)"),
          ("DEFAULT", .str "var(--color-brand)"),
          ("dark", .str "var(--color-brand-dark)")])]),
      ("spacing", .obj [
        ("dynamic", .str "var(--spacing-dynamic)")]),
      ("fontSize", .obj [
        ("responsive", .str "clamp(1rem, 2.5vw, 2.5rem)")])])]),
    ("plugins", .arr [])]

/-- All configuration files present in the repository. -/
def repoConfigs : List JSValue :=
  [detectingClassesConfig, functionsDirectivesConfig]

/-- The recognized top-level configuration keys named by the spec. -/
def recognizedConfigKeys : List String :=
  ["content", "theme", "darkMode", "safelist", "blocklist", "plugins"]

/-- The theme object of a configuration (empty object when absent). -/
def themeOf (c : JSValue) : JSValue := (lookupKey c "theme").getD (.obj [])

/-- The theme.extend block of a configuration (empty object when absent). -/
def extendBlockOf (c : JSValue) : JSValue :=
  (getPath c ["theme", "extend"]).getD (.obj [])

/-- The token scales declared by a configuration: each entry of the
theme.extend block is a scale, except the colors entry, whose own entries
(one object per color name) are the scales. -/
def tokenScalesOf (c : JSValue) : List JSValue :=
  (objFields (extendBlockOf c)).foldr
    (fun kv acc =>
      (if kv.1 == "colors" then (objFields kv.2).map Prod.snd else [kv.2])
        ++ acc) []

/-- All token scales across the configuration files of the repository. -/
def repoTokenScales : List JSValue :=
  tokenScalesOf detectingClassesConfig ++ tokenScalesOf functionsDirectivesConfig

/-- The color scales declared by a configuration: the values of the
theme.extend.colors object. -/
def colorScalesOf (c : JSValue) : List JSValue :=
  (objFields ((getPath c ["theme", "extend", "colors"]).getD (.obj []))).map
    Prod.snd

/-- All color scales across the configuration files of the repository. -/
def repoColorScales : List JSValue :=
  colorScalesOf detectingClassesConfig ++ colorScalesOf functionsDirectivesConfig

/-- The brand color scale of src/functions-directives/tailwind.config.js. -/
def fdBrandScale : JSValue :=
  (getPath functionsDirectivesConfig
    ["theme", "extend", "colors", "brand"]).getD (.obj [])

/-- The values stored in one token scale, in source order. -/
def tokenScaleValues (s : JSValue) : List JSValue :=
  (objFields s).map Prod.snd

/-- All values stored in token scales across the configuration files. -/
def repoTokenValues : List JSValue :=
  repoTokenScales.foldr (fun s acc => tokenScaleValues s ++ acc) []

/-- The ten integer shade keys 50 through 900 named by the spec. -/
def tenShadeKeys : List String :=
  ["50", "100", "200", "300", "400", "500", "600", "700", "800", "900"]

/-- Whether a scale has exactly the ten integer shade keys 50 through 900. -/
def hasTenShadeKeys (v : JSValue) : Bool := objKeys v == tenShadeKeys

/-- Whether a character is a hexadecimal digit. -/
def isHexDigitChar (c : Char) : Bool :=
  c.isDigit || ('a' ≤ c && c ≤ 'f') || ('A' ≤ c && c ≤ 'F')

/-- Whether a string is a color hex code: a hash sign followed by three or
six hexadecimal digits. -/
def isHexColor (s : String) : Bool :=
  strLeadsWith s "#" &&
  ((s.toList.drop 1).all isHexDigitChar) &&
  (s.toList.length == 4 || s.toList.length == 7)

/-- CSS length units accepted for a length literal. -/
def lengthUnits : List String :=
  ["px", "rem", "em", "vw", "vh", "pt", "ch", "%"]

/-- Whether a string is a length literal: a decimal number directly
followed by a CSS length unit. -/
def isLengthString (s : String) : Bool :=
  lengthUnits.any (fun u =>
    strClosesWith s u &&
    (let core := s.toList.take (s.toList.length - u.toList.length)
     !core.isEmpty && core.all (fun ch => ch.isDigit || ch == '.')))

/-- Whether a value is a line-height pair: a two-element array pairing a
font size with a line height. -/
def isLineHeightPair : JSValue → Bool
  | .arr [.str a, .str b] => isLengthString a && isLengthString b
  | .arr [.str a, .obj [("lineHeight", .str b)]] =>
      isLengthString a && isLengthString b
  | _ => false

/-- Whether a value has one of the three shapes the spec lists for token
scale values: a color hex code, a length string, or a line-height pair. -/
def isSpecTokenValue (v : JSValue) : Bool :=
  match v with
  | .str s => isHexColor s || isLengthString s
  | _ => isLineHeightPair v

/-- Whether a string is a CSS custom-property reference var(--...). -/
def isCSSVarRef (s : String) : Bool :=
  strLeadsWith s "var(--" && strClosesWith s ")"

/-- Whether a string is a CSS clamp() expression. -/
def isCSSClampExpr (s : String) : Bool :=
  strLeadsWith s "clamp(" && strClosesWith s ")"

/-- Whether a value has one of the shapes that actually occur as token
scale values in the configuration files: a string holding a CSS
custom-property reference or a CSS clamp() expression. -/
def isConfigValueShape (v : JSValue) : Bool :=
  match v with
  | .str s => isCSSVarRef s || isCSSClampExpr s
  | _ => false

/-- The entries of the content array of a configuration. -/
def contentEntriesOf (c : JSValue) : List JSValue :=
  match lookupKey c "content" with
  | some (.arr xs) => xs
  | _ => []

/-- The string entries of the content array of a configuration. -/
def contentGlobsOf (c : JSValue) : List String :=
  (contentEntriesOf c).foldr
    (fun v acc =>
      match v with
      | .str s => s :: acc
      | _ => acc) []

/-- The safelist configuration example of the content-configuration README
(src/unnamed/part_001): three literal class names and one pattern object. -/
def safelistExampleMain : JSValue :=
  .arr [
    .str "bg-red-500",
    .str "bg-blue-500",
    .str "text-white",
    .obj [("pattern", .regex "bg-(red|green|blue)-(50|100|500)")]]

/-- The second safelist example of the same README: three literal class
names for dynamic colors. -/
def safelistExampleDynamic : JSValue :=
  .arr [.str "bg-red-500", .str "bg-green-500", .str "bg-blue-500"]

/-- The blocklist configuration example of the same README: two literal
class names. -/
def blocklistExample : JSValue :=
  .arr [.str "container", .str "px-0.5"]

/-- All safelist and blocklist entries appearing in the configuration
examples of the repository. -/
def forceListExampleEntries : List JSValue :=
  arrElems safelistExampleMain ++ arrElems safelistExampleDynamic ++
    arrElems blocklistExample

/-- Whether a value is a legal safelist or blocklist entry shape: a literal
class-name string, or a pattern object holding a regular expression. -/
def isForceListEntry : JSValue → Bool
  | .str _ => true
  | .obj [("pattern", .regex _)] => true
  | _ => false

/-- The three named cascade layers. -/
inductive CascadeLayer where
  | base
  | components
  | utilities
  deriving Repr, DecidableEq

/-- Modelled from the spec: the stylesheet entry file itself is not under
src (only the README src/unnamed/part_002 documents it); these are the
three directive lines the spec and the README give for the stylesheet
entry, in source order. -/
def stylesheetEntryLines : List String :=
  ["@tailwind base;", "@tailwind components;", "@tailwind utilities;"]

/-- The layer a directive line injects, when it is one of the three
framework directives. -/
def directiveLayer (line : String) : Option CascadeLayer :=
  if line == "@tailwind base;" then some .base
  else if line == "@tailwind components;" then some .components
  else if line == "@tailwind utilities;" then some .utilities
  else none

/-- Modelled from the spec: the fixed relative precedence of the cascade
layers documented in src/unnamed/part_002 (base lowest, components in the
middle, utilities highest). -/
def layerPrecedence : CascadeLayer → Nat
  | .base => 1
  | .components => 2
  | .utilities => 3

/-- A top-level statement of a configuration module: a default export of a
literal value, an assignment to a variable, or a thrown error. Each
configuration file of the repository consists of a single default export
of an object literal. -/
inductive Stmt where
  | exportDefaultLit (v : JSValue)
  | assignVar (name : String) (v : JSValue)
  | throwErr (msg : String)

/-- The mutable state visible to a configuration module at evaluation
time: its variable bindings. -/
structure JSState where
  vars : List (String × JSValue)

/-- Run the statements of a module in order, threading the state and the
current default export: an assignment mutates the state, a throw aborts
with an error, an export records the exported value. -/
def runStmts : List Stmt → JSState → Option JSValue →
    Except String (Option JSValue × JSState)
  | [], st, ex => .ok (ex, st)
  | .exportDefaultLit v :: rest, st, _ => runStmts rest st (some v)
  | .assignVar n v :: rest, st, ex =>
      runStmts rest ⟨(n, v) :: st.vars⟩ ex
  | .throwErr m :: _, _, _ => .error m

/-- Evaluate a configuration module from a given state, with no export
recorded yet. -/
def evalModule (stmts : List Stmt) (st : JSState) :
    Except String (Option JSValue × JSState) :=
  runStmts stmts st none

/-- The module body of src/detecting-classes/tailwind.config.js: a single
default export of the configuration object literal. -/
def detectingClassesModule : List Stmt :=
  [.exportDefaultLit detectingClassesConfig]

/-- The module body of src/functions-directives/tailwind.config.js: a
single default export of the configuration object literal. -/
def functionsDirectivesModule : List Stmt :=
  [.exportDefaultLit functionsDirectivesConfig]

/-- C1: for every configuration file in the repository, the exported
configuration is a single object whose top-level keys all belong to the
recognized set content, theme, darkMode, safelist, blocklist, plugins. -/
theorem C1_recognized_top_level_keys :
    ∀ c ∈ repoConfigs,
      (objKeys c).all (fun k => recognizedConfigKeys.contains k) = true := by
  decide

/-- Witness for C1 at the detecting-classes configuration. -/
theorem C1_recognized_top_level_keys_witness :
    (objKeys detectingClassesConfig).all
      (fun k => recognizedConfigKeys.contains k) = true :=
  C1_recognized_top_level_keys detectingClassesConfig (List.Mem.head _)

/-- C2: in every configuration file in the repository, all theme
customization sits inside the theme.extend block: the theme object exists
and its only top-level key is extend, so no replacement category appears
alongside extend. -/
theorem C2_theme_only_extend :
    ∀ c ∈ repoConfigs,
      (lookupKey c "theme").isSome = true ∧ objKeys (themeOf c) = ["extend"] := by
  decide

/-- Witness for C2 at the functions-directives configuration. -/
theorem C2_theme_only_extend_witness :
    (lookupKey functionsDirectivesConfig "theme").isSome = true ∧
      objKeys (themeOf functionsDirectivesConfig) = ["extend"] :=
  C2_theme_only_extend functionsDirectivesConfig
    (List.Mem.tail _ (List.Mem.head _))

/-- C3 counterexample: the brand color scale of
src/functions-directives/tailwind.config.js is a color scale of the
repository configuration, yet its keys are the three named keys light,
DEFAULT, dark, not the ten integer shade keys 50 through 900. -/
theorem C3_ten_shade_keys_counterexample :
    fdBrandScale ∈ repoColorScales ∧
      objKeys fdBrandScale = ["light", "DEFAULT", "dark"] ∧
      hasTenShadeKeys fdBrandScale = false :=
  ⟨List.Mem.head _, by decide, by decide⟩

/-- C3 amended: the only color scale defined in the configuration files of
the repository is the brand scale of functions-directives, and it contains
exactly the three named keys light, DEFAULT, dark; the ten-key 50..900
scale appears only as documentation guidance, not in a configuration
file. -/
theorem C3_brand_scale_three_named_keys :
    repoColorScales = [fdBrandScale] ∧
      objKeys fdBrandScale = ["light", "DEFAULT", "dark"] :=
  ⟨rfl, by decide⟩

/-- C4 counterexample: the value of the light key of the brand scale is
the string var(--color-brand-light), which is stored in a token scale of
the configuration files yet is neither a color hex code, nor a length
string, nor a line-height pair. -/
theorem C4_value_shapes_counterexample :
    JSValue.str "var(--color-brand-light)" ∈ repoTokenValues ∧
      isSpecTokenValue (JSValue.str "var(--color-brand-light)") = false ∧
      repoTokenValues.all isSpecTokenValue = false :=
  ⟨List.Mem.head _, by decide, by decide⟩

/-- C4 amended: every value stored in a token scale of the configuration
files of the repository is a string holding a CSS custom-property
reference var(--...) or a CSS clamp() expression; no color hex code,
plain length string, or line-height pair occurs there. -/
theorem C4_values_are_var_or_clamp :
    repoTokenValues.all isConfigValueShape = true ∧
      repoTokenValues.all isSpecTokenValue = false := by
  decide

/-- C5: for every configuration file in the repository, the content field
is a non-empty sequence all of whose entries are strings, and it contains
the entry ./index.html. -/
theorem C5_content_globs :
    ∀ c ∈ repoConfigs,
      (contentEntriesOf c).isEmpty = false ∧
      (contentEntriesOf c).all isStrValue = true ∧
      "./index.html" ∈ contentGlobsOf c := by
  decide

/-- Witness for C5 at the detecting-classes configuration. -/
theorem C5_content_globs_witness :
    (contentEntriesOf detectingClassesConfig).isEmpty = false ∧
      (contentEntriesOf detectingClassesConfig).all isStrValue = true ∧
      "./index.html" ∈ contentGlobsOf detectingClassesConfig :=
  C5_content_globs detectingClassesConfig (List.Mem.head _)

/-- C6: within every single token scale of the configuration files of the
repository, the keys are pairwise distinct. -/
theorem C6_scale_keys_distinct :
    ∀ s ∈ repoTokenScales, (objKeys s).Nodup := by
  decide

/-- Witness for C6 at the brand color scale. -/
theorem C6_scale_keys_distinct_witness :
    (objKeys fdBrandScale).Nodup :=
  C6_scale_keys_distinct fdBrandScale (List.Mem.head _)

/-- C7: the stylesheet entry consists of exactly three directive lines
injecting the base, components and utilities layers in that order, and the
three named cascade layers have fixed increasing precedence: base lowest,
components in the middle, utilities highest. -/
theorem C7_stylesheet_directives_and_layers :
    stylesheetEntryLines.length = 3 ∧
      stylesheetEntryLines.filterMap directiveLayer =
        [CascadeLayer.base, CascadeLayer.components, CascadeLayer.utilities] ∧
      layerPrecedence CascadeLayer.base < layerPrecedence CascadeLayer.components ∧
      layerPrecedence CascadeLayer.components < layerPrecedence CascadeLayer.utilities ∧
      (stylesheetEntryLines.filterMap directiveLayer).map layerPrecedence =
        [1, 2, 3] ∧
      (stylesheetEntryLines.filterMap directiveLayer).Sorted
        (fun a b => layerPrecedence a < layerPrecedence b) := by
  decide

/-- C8: every safelist entry and every blocklist entry appearing in the
configuration examples of the repository is either a literal class-name
string or a pattern object, and the example lists are not empty. -/
theorem C8_force_list_entry_shapes :
    forceListExampleEntries.all isForceListEntry = true ∧
      forceListExampleEntries.isEmpty = false := by
  decide

/-- C9: evaluating either configuration module of the repository from any
state succeeds without error, exports exactly the constant configuration
object literal, and leaves the state unchanged. -/
theorem C9_modules_pure :
    ∀ st : JSState,
      evalModule detectingClassesModule st =
        Except.ok (some detectingClassesConfig, st) ∧
      evalModule functionsDirectivesModule st =
        Except.ok (some functionsDirectivesConfig, st) :=
  fun _ => ⟨rfl, rfl⟩

/-- Witness for C9 at the empty state. -/
theorem C9_modules_pure_witness :
    evalModule detectingClassesModule ⟨[]⟩ =
      Except.ok (some detectingClassesConfig, (⟨[]⟩ : JSState)) ∧
    evalModule functionsDirectivesModule ⟨[]⟩ =
      Except.ok (some functionsDirectivesConfig, (⟨[]⟩ : JSState)) :=
  C9_modules_pure ⟨[]⟩

/-- C10: in every configuration file in the repository, the plugins list
is the empty array, the keys darkMode, safelist and blocklist are absent,
and the top-level keys are exactly content, theme and plugins, so only
content and theme carry non-trivial example values. -/
theorem C10_trivial_keys :
    ∀ c ∈ repoConfigs,
      (match lookupKey c "plugins" with
        | some (.arr xs) => xs.isEmpty
        | _ => false) = true ∧
      (lookupKey c "darkMode").isNone = true ∧
      (lookupKey c "safelist").isNone = true ∧
      (lookupKey c "blocklist").isNone = true ∧
      objKeys c = ["content", "theme", "plugins"] := by
  decide

/-- Witness for C10 at the detecting-classes configuration. -/
theorem C10_trivial_keys_witness :
    (match lookupKey detectingClassesConfig "plugins" with
      | some (.arr xs) => xs.isEmpty
      | _ => false) = true ∧
    (lookupKey detectingClassesConfig "darkMode").isNone = true ∧
    (lookupKey detectingClassesConfig "safelist").isNone = true ∧
    (lookupKey detectingClassesConfig "blocklist").isNone = true ∧
    objKeys detectingClassesConfig = ["content", "theme", "plugins"] :=
  C10_trivial_keys detectingClassesConfig (List.Mem.head _)

end TailwindPlayground
